import Mathlib

/-!
Verification of the static-file-serving / API-proxying HTTP server in
src/server.py (class CustomHandler and its helpers).

The embedding is a direct translation of the request-handling code:

- bodies and header values are modelled as Lean strings (byte strings);
- the header collection of a request is a list of name/value pairs, and
  lookups are case-insensitive, mirroring the Python email.message.Message
  behaviour of self.headers.get and the in operator;
- the outbound network call of urllib.request.urlopen is modelled as a
  function from the outbound request to a TransportResult: a successful
  response, an HTTPError carrying an optional error stream (e.fp), or any
  other exception carrying its message;
- a HandleResult records the response written to the client together with
  the outbound request handed to the transport (none when no network call
  was attempted);
- the method dispatch of http.server.BaseHTTPRequestHandler is modelled
  explicitly: a do_METHOD handler is looked up by exact method name, and a
  missing handler yields send_error 501 "Unsupported method"; do_HEAD is
  inherited from SimpleHTTPRequestHandler and serves static files.
-/

/-- Leading-match test on character lists: the second list is an initial
run of the first. -/
def listIsLead : List Char → List Char → Bool
  | _, [] => true
  | [], _ :: _ => false
  | a :: as, b :: bs => a == b && listIsLead as bs

/-- Model of the Python str.startswith test. -/
def strStarts (s pat : String) : Bool :=
  listIsLead s.data pat.data

/-- Model of the Python str.endswith test. -/
def strEnds (s pat : String) : Bool :=
  listIsLead s.data.reverse pat.data.reverse

/-- Model of the ASCII lowercasing used by the Python header machinery
for one character. -/
def lowerChar (c : Char) : Char :=
  if 65 ≤ c.toNat ∧ c.toNat ≤ 90 then Char.ofNat (c.toNat + 32) else c

/-- Model of the ASCII lowercasing used by the Python header machinery. -/
def lowerStr (s : String) : String :=
  ⟨s.data.map lowerChar⟩

/-- Case-insensitive header lookup, modelling self.headers.get of the
Python email.message.Message class: the first header whose lowercased name
matches is returned. -/
def getHeader (hs : List (String × String)) (name : String) : Option String :=
  (hs.find? (fun p => lowerStr p.fst == lowerStr name)).map Prod.snd

/-- The process-wide configuration dictionary databricks_config produced by
get_databricks_config in src/server.py, lines 23-41. -/
structure Config where
  host : String
  token : String
deriving DecidableEq

/-- An inbound HTTP request as seen by CustomHandler: the command, the raw
path (query string included, as in self.path), the header list, and the
body that a handler would obtain from rfile given the Content-Length header
(none when Content-Length is absent or not positive). -/
structure InboundRequest where
  method : String
  path : String
  headers : List (String × String)
  body : Option String
deriving DecidableEq

/-- The outbound request built by proxy_api_request and handed to
urllib.request.urlopen. -/
structure OutboundRequest where
  url : String
  method : String
  headers : List (String × String)
  body : Option String
deriving DecidableEq

/-- Result of the outbound call: a response from the backend, an HTTPError
with status code and optional error stream (mirroring e.fp), or any other
exception with its message. -/
inductive TransportResult where
  | success (status : Nat) (headers : List (String × String)) (body : String)
  | httpError (code : Nat) (errStream : Option String)
  | failure (msg : String)

/-- An HTTP response written back to the client: status code, the reason
phrase of the status line, headers in the order sent, and the body. The
Server and Date headers added by send_response, and the Content-Length of
error pages, are elided: no claim mentions them. -/
structure Response where
  status : Nat
  reason : String
  headers : List (String × String)
  body : String
deriving DecidableEq

/-- Result of handling one inbound request: the response, plus the outbound
request passed to the transport layer (none when no network call was
attempted). -/
structure HandleResult where
  response : Response
  outbound : Option OutboundRequest
deriving DecidableEq

/-- The three cache-disabling headers added by the end_headers override. -/
def noCacheHeaders : List (String × String) :=
  [("Cache-Control", "no-cache, no-store, must-revalidate"),
   ("Pragma", "no-cache"),
   ("Expires", "0")]

/-- Condition of the end_headers override, src/server.py line 154. -/
def wantsNoCache (path : String) : Bool :=
  strEnds path ".html" || path == "/" || path == "/index.html"

/-- Model of the end_headers override, src/server.py lines 152-158: the
headers already buffered are flushed, with the no-cache headers appended
when the request path is an HTML page or the root. -/
def finalizeHeaders (path : String) (hs : List (String × String)) : List (String × String) :=
  hs ++ (if wantsNoCache path then noCacheHeaders else [])

/-- Default reason phrases of BaseHTTPRequestHandler.responses for the
status codes this server can emit via send_response without a message. -/
def defaultReason (code : Nat) : String :=
  if code == 200 then "OK"
  else if code == 404 then "Not Found"
  else if code == 405 then "Method Not Allowed"
  else if code == 500 then "Internal Server Error"
  else if code == 501 then "Not Implemented"
  else ""

/-- Body of the error page produced by BaseHTTPRequestHandler.send_error
(the DEFAULT_ERROR_MESSAGE template; HTML quoting of the message and the
explanation paragraph are elided). -/
def errorBody (code : Nat) (message : String) : String :=
  "<!DOCTYPE HTML>\n<html lang=\"en\">\n<head>\n<meta charset=\"utf-8\">\n<title>Error response</title>\n</head>\n<body>\n<h1>Error response</h1>\n<p>Error code: "
    ++ toString code ++ "</p>\n<p>Message: " ++ message ++ ".</p>\n</body>\n</html>\n"

/-- Model of self.send_error(code, message): the message becomes the reason
phrase of the status line, the standard error headers are sent, and
end_headers applies the no-cache override for the current request path. -/
def sendError (path : String) (code : Nat) (message : String) : Response :=
  { status := code
    reason := message
    headers := finalizeHeaders path
      [("Content-Type", "text/html;charset=utf-8"), ("Connection", "close")]
    body := errorBody code message }

/-- The base outbound header dictionary built in proxy_api_request,
src/server.py lines 61-64. -/
def obBase : List (String × String) :=
  [("Content-Type", "application/json"), ("User-Agent", "Databricks-App/1.0")]

/-- The credential selection of proxy_api_request, src/server.py lines
66-75: a truthy X-Forwarded-Access-Token wins and is sent as a Bearer
credential; otherwise a present Authorization header is forwarded verbatim;
otherwise no Authorization header is sent. An empty forwarded token is
falsy in Python and therefore falls through to the elif. -/
def outboundHeaders (inHdrs : List (String × String)) : List (String × String) :=
  match getHeader inHdrs "X-Forwarded-Access-Token" with
  | some t =>
    if t ≠ "" then obBase ++ [("Authorization", "Bearer " ++ t)]
    else
      match getHeader inHdrs "Authorization" with
      | some v => obBase ++ [("Authorization", v)]
      | none => obBase
  | none =>
    match getHeader inHdrs "Authorization" with
    | some v => obBase ++ [("Authorization", v)]
    | none => obBase

/-- The outbound request constructed by proxy_api_request, src/server.py
lines 56-80: the URL concatenates the scheme, the configured host and the
raw request path; req.data is only set when the body is truthy, so an
empty body is dropped exactly like a missing one. -/
def mkOutbound (host method path : String) (inHdrs : List (String × String))
    (body : Option String) : OutboundRequest :=
  { url := "https://" ++ host ++ path
    method := method
    headers := outboundHeaders inHdrs
    body := match body with
            | some b => if b ≠ "" then some b else none
            | none => none }

/-- Model of CustomHandler.proxy_api_request, src/server.py lines 47-100. -/
def proxy_api_request (cfg : Config) (backend : OutboundRequest → TransportResult)
    (path : String) (inHdrs : List (String × String)) (method : String)
    (body : Option String) : HandleResult :=
  if cfg.host == "" then
    { response := sendError path 500 "Databricks host not configured", outbound := none }
  else
    let o := mkOutbound cfg.host method path inHdrs body
    match backend o with
    | TransportResult.success st hs bd =>
      { response :=
          { status := st
            reason := defaultReason st
            headers := finalizeHeaders path
              (hs.filter (fun p =>
                lowerStr p.fst != "transfer-encoding" && lowerStr p.fst != "connection"))
            body := bd }
        outbound := some o }
    | TransportResult.httpError code errStream =>
      { response :=
          { status := code
            reason := defaultReason code
            headers := finalizeHeaders path [("Content-Type", "application/json")]
            body := match errStream with
                    | some b => b
                    | none => "\x7b\x7d" }
        outbound := some o }
    | TransportResult.failure msg =>
      { response := sendError path 500 ("Proxy error: " ++ msg), outbound := some o }

/-- Environment values read per request by CustomHandler (os.getenv with
default empty string). -/
structure Env where
  GENIE_SPACE_ID : String
  SQL_WAREHOUSE_ID : String
  DATABRICKS_CLIENT_ID : String
deriving DecidableEq

/-- Literal chunk of the config.js template before the host value. -/
def cfgChunk1 : String :=
  "\n// Runtime configuration injected by server\nwindow.APP_CONFIG = \x7b\n  databricksHost: \x27"

/-- Literal chunk of the config.js template between host and genie id. -/
def cfgChunk2 : String :=
  "\x27,\n  genieSpaceId: \x27"

/-- Literal chunk of the config.js template between genie id and warehouse id. -/
def cfgChunk3 : String :=
  "\x27,\n  sqlWarehouseId: \x27"

/-- Literal chunk of the config.js template between warehouse id and the
isOBO field name. -/
def cfgChunk4 : String :=
  "\x27,\n  "

/-- Literal chunk of the config.js template between the isOBO value and the
client id. -/
def cfgChunk5 : String :=
  ",\n  clientId: \x27"

/-- Literal tail of the config.js template after the client id. -/
def cfgChunk6 : String :=
  "\x27\n\x7d;\nconsole.log(\x27✅ Runtime config loaded from server:\x27, window.APP_CONFIG);\nconsole.log(\x27🔐 Authentication mode:\x27, window.APP_CONFIG.isOBO ? \x27OAuth/OBO\x27 : \x27Token\x27);\n"

/-- The generated JavaScript configuration body, src/server.py lines
117-146. In the source, host is interpolated as databricks_host or the
empty string, which always equals databricks_host itself; is_obo is
bool(client_id), rendered lowercased as true or false. -/
def configJsBody (host : String) (env : Env) : String :=
  cfgChunk1 ++ host ++ cfgChunk2 ++ env.GENIE_SPACE_ID ++ cfgChunk3
    ++ env.SQL_WAREHOUSE_ID ++ cfgChunk4 ++ "isOBO: "
    ++ (if env.DATABRICKS_CLIENT_ID ≠ "" then "true" else "false")
    ++ cfgChunk5 ++ env.DATABRICKS_CLIENT_ID ++ cfgChunk6

/-- The response of the /config.js branch of do_GET, src/server.py lines
109-147: status 200, a Content-type header, one Cache-Control header sent
explicitly, then end_headers (which, for this path, appends nothing). -/
def configJsResponse (path : String) (cfg : Config) (env : Env) : Response :=
  { status := 200
    reason := defaultReason 200
    headers := finalizeHeaders path
      [("Content-type", "application/javascript"),
       ("Cache-Control", "no-cache, no-store, must-revalidate")]
    body := configJsBody cfg.host env }

/-- A static file in the dist directory, described by its inferred MIME
type and content. -/
structure StaticFile where
  mime : String
  content : String
deriving DecidableEq

/-- Model of the SimpleHTTPRequestHandler static file service used for all
remaining GET and HEAD requests: a found file yields 200 with its MIME
type as Content-type (Content-Length and Last-Modified elided), a missing
one yields send_error 404; headOnly suppresses the body as in do_HEAD. -/
def serveStatic (fs : String → Option StaticFile) (path : String) (headOnly : Bool) : Response :=
  match fs path with
  | some f =>
    { status := 200
      reason := defaultReason 200
      headers := finalizeHeaders path [("Content-type", f.mime)]
      body := if headOnly then "" else f.content }
  | none => sendError path 404 "File not found"

/-- Model of CustomHandler.do_GET, src/server.py lines 102-150. -/
def do_GET (cfg : Config) (env : Env) (fs : String → Option StaticFile)
    (backend : OutboundRequest → TransportResult) (req : InboundRequest) : HandleResult :=
  if strStarts req.path "/api/" then
    proxy_api_request cfg backend req.path req.headers "GET" none
  else if req.path == "/config.js" then
    { response := configJsResponse req.path cfg env, outbound := none }
  else
    { response := serveStatic fs req.path false, outbound := none }

/-- Model of CustomHandler.do_POST, src/server.py lines 160-169. -/
def do_POST (cfg : Config)
    (backend : OutboundRequest → TransportResult) (req : InboundRequest) : HandleResult :=
  if strStarts req.path "/api/" then
    proxy_api_request cfg backend req.path req.headers "POST" req.body
  else
    { response := sendError req.path 405 "Method not allowed", outbound := none }

/-- Model of CustomHandler.do_DELETE, src/server.py lines 171-178: the
proxy is invoked with no body argument, so the inbound body is ignored. -/
def do_DELETE (cfg : Config)
    (backend : OutboundRequest → TransportResult) (req : InboundRequest) : HandleResult :=
  if strStarts req.path "/api/" then
    proxy_api_request cfg backend req.path req.headers "DELETE" none
  else
    { response := sendError req.path 405 "Method not allowed", outbound := none }

/-- Model of CustomHandler.do_PUT, src/server.py lines 180-189. -/
def do_PUT (cfg : Config)
    (backend : OutboundRequest → TransportResult) (req : InboundRequest) : HandleResult :=
  if strStarts req.path "/api/" then
    proxy_api_request cfg backend req.path req.headers "PUT" req.body
  else
    { response := sendError req.path 405 "Method not allowed", outbound := none }

/-- Model of CustomHandler.do_PATCH, src/server.py lines 191-200. -/
def do_PATCH (cfg : Config)
    (backend : OutboundRequest → TransportResult) (req : InboundRequest) : HandleResult :=
  if strStarts req.path "/api/" then
    proxy_api_request cfg backend req.path req.headers "PATCH" req.body
  else
    { response := sendError req.path 405 "Method not allowed", outbound := none }

/-- Model of the inherited SimpleHTTPRequestHandler.do_HEAD: static file
headers without a body. CustomHandler does not override it. -/
def do_HEAD (fs : String → Option StaticFile) (req : InboundRequest) : HandleResult :=
  { response := serveStatic fs req.path true, outbound := none }

/-- Model of the BaseHTTPRequestHandler method dispatch for CustomHandler:
the handler named do_ plus the exact command string is invoked when it
exists; otherwise send_error 501 Unsupported method. The handlers that
exist on CustomHandler are do_GET, do_HEAD (inherited), do_POST, do_PUT,
do_PATCH and do_DELETE. -/
def handle (cfg : Config) (env : Env) (fs : String → Option StaticFile)
    (backend : OutboundRequest → TransportResult) (req : InboundRequest) : HandleResult :=
  if req.method == "GET" then do_GET cfg env fs backend req
  else if req.method == "HEAD" then do_HEAD fs req
  else if req.method == "POST" then do_POST cfg backend req
  else if req.method == "PUT" then do_PUT cfg backend req
  else if req.method == "PATCH" then do_PATCH cfg backend req
  else if req.method == "DELETE" then do_DELETE cfg backend req
  else
    { response :=
        sendError req.path 501 ("Unsupported method (\x27" ++ req.method ++ "\x27)")
      outbound := none }

/-- The body value handed to proxy_api_request by the do_METHOD handler of
each proxied method: only POST, PUT and PATCH read the inbound body. -/
def proxiedBody (req : InboundRequest) : Option String :=
  if req.method == "POST" || req.method == "PUT" || req.method == "PATCH" then req.body
  else none

/-- State-passing form of handle: the handlers of CustomHandler only ever
read the module-level databricks_config dictionary (src/server.py lines 41,
51, 117); no assignment to it exists anywhere after line 41, so each
request returns the configuration unchanged. -/
def handleStateful (cfg : Config) (env : Env) (fs : String → Option StaticFile)
    (backend : OutboundRequest → TransportResult) (req : InboundRequest) :
    HandleResult × Config :=
  (handle cfg env fs backend req, cfg)

/-- Running the server on a sequence of requests, threading the process
state (the configuration) through the stateful handler. -/
def runServer (cfg : Config) (env : Env) (fs : String → Option StaticFile)
    (backend : OutboundRequest → TransportResult) :
    List InboundRequest → List HandleResult × Config
  | [] => ([], cfg)
  | r :: rs =>
    let step := handleStateful cfg env fs backend r
    let rest := runServer step.2 env fs backend rs
    (step.1 :: rest.1, rest.2)

/-- Substring containment of byte strings, used to state claims about the
generated config.js body. -/
def strContains (s pat : String) : Prop :=
  ∃ a b : String, s = a ++ pat ++ b

/-- Concrete empty configuration used in witnesses. -/
def cfgEmpty : Config :=
  { host := "", token := "" }

/-- Concrete configured host used in witnesses. -/
def cfgH : Config :=
  { host := "h.example.com", token := "" }

/-- Concrete environment with no client id used in witnesses. -/
def envA : Env :=
  { GENIE_SPACE_ID := "", SQL_WAREHOUSE_ID := "", DATABRICKS_CLIENT_ID := "" }

/-- Concrete file system with no files, used in witnesses. -/
def fsEmpty : String → Option StaticFile :=
  fun _ => none

/-- Concrete transport that always fails, used in witnesses. -/
def backendFail : OutboundRequest → TransportResult :=
  fun _ => TransportResult.failure "refused"

/-- Helper: a nonempty host makes the emptiness test of proxy_api_request
false. -/
theorem host_beq_false (cfg : Config) (hh : cfg.host ≠ "") : (cfg.host == "") = false := by
  simp [hh]

/-- Helper: with a configured host, proxy_api_request always hands exactly
the constructed outbound request to the transport, whatever the transport
then does. -/
theorem proxy_outbound_some (cfg : Config) (backend : OutboundRequest → TransportResult)
    (path : String) (inHdrs : List (String × String)) (method : String) (body : Option String)
    (hh : cfg.host ≠ "") :
    (proxy_api_request cfg backend path inHdrs method body).outbound =
      some (mkOutbound cfg.host method path inHdrs body) := by
  simp only [proxy_api_request, host_beq_false cfg hh, Bool.false_eq_true, if_false]
  split <;> rfl

/-- Helper: for the five proxied methods on an API path, handle reduces to
proxy_api_request with the body that the corresponding do_METHOD handler
reads. -/
theorem handle_api (cfg : Config) (env : Env) (fs : String → Option StaticFile)
    (backend : OutboundRequest → TransportResult) (req : InboundRequest)
    (hm : req.method ∈ ["GET", "POST", "PUT", "PATCH", "DELETE"])
    (hp : strStarts req.path "/api/" = true) :
    handle cfg env fs backend req =
      proxy_api_request cfg backend req.path req.headers req.method (proxiedBody req) := by
  obtain ⟨m, p, hs, b⟩ := req
  simp only [List.mem_cons, List.not_mem_nil, or_false] at hm
  rcases hm with h | h | h | h | h <;> subst h <;>
    simp [handle, do_GET, do_POST, do_PUT, do_PATCH, do_DELETE, proxiedBody, hp] at hp ⊢

/-- Claim C2: for every inbound /api/* request handled by the proxy (the
five proxied methods), if the resolved backend host is empty, the response
has status 500 with the message Databricks host not configured as its
reason phrase, and no outbound network call is attempted. -/
theorem C2_empty_host_fails_fast (cfg : Config) (env : Env) (fs : String → Option StaticFile)
    (backend : OutboundRequest → TransportResult) (req : InboundRequest)
    (hm : req.method ∈ ["GET", "POST", "PUT", "PATCH", "DELETE"])
    (hp : strStarts req.path "/api/" = true) (hh : cfg.host = "") :
    (handle cfg env fs backend req).response.status = 500 ∧
    (handle cfg env fs backend req).response.reason = "Databricks host not configured" ∧
    (handle cfg env fs backend req).outbound = none := by
  rw [handle_api cfg env fs backend req hm hp]
  simp [proxy_api_request, hh, sendError]

/-- Concrete GET request to an API path, used in witnesses. -/
def reqGetApi : InboundRequest :=
  { method := "GET", path := "/api/x", headers := [], body := none }

/-- Witness for claim C2 at a concrete request and empty host. -/
theorem C2_witness :
    reqGetApi.method ∈ ["GET", "POST", "PUT", "PATCH", "DELETE"] ∧
    strStarts reqGetApi.path "/api/" = true ∧
    cfgEmpty.host = "" ∧
    ((handle cfgEmpty envA fsEmpty backendFail reqGetApi).response.status = 500 ∧
     (handle cfgEmpty envA fsEmpty backendFail reqGetApi).response.reason =
       "Databricks host not configured" ∧
     (handle cfgEmpty envA fsEmpty backendFail reqGetApi).outbound = none) :=
  ⟨by decide, by decide, rfl,
   C2_empty_host_fails_fast cfgEmpty envA fsEmpty backendFail reqGetApi
     (by decide) (by decide) rfl⟩

/-- Claim C4: for every inbound /api/* request with a non-empty configured
host, the outbound URL is the scheme, the configured host and the raw
request path (query string included) concatenated, with no alteration. -/
theorem C4_outbound_url (cfg : Config) (env : Env) (fs : String → Option StaticFile)
    (backend : OutboundRequest → TransportResult) (req : InboundRequest)
    (hm : req.method ∈ ["GET", "POST", "PUT", "PATCH", "DELETE"])
    (hp : strStarts req.path "/api/" = true) (hh : cfg.host ≠ "")
    (o : OutboundRequest) (ho : (handle cfg env fs backend req).outbound = some o) :
    o.url = "https://" ++ cfg.host ++ req.path := by
  rw [handle_api cfg env fs backend req hm hp,
      proxy_outbound_some cfg backend req.path req.headers req.method (proxiedBody req) hh] at ho
  have h2 := Option.some.inj ho
  subst h2
  rfl

/-- Concrete GET request with a query string, used in witnesses. -/
def reqC4 : InboundRequest :=
  { method := "GET", path := "/api/z?q=1", headers := [], body := none }

/-- Witness for claim C4 at a concrete request carrying a query string. -/
theorem C4_witness :
    reqC4.method ∈ ["GET", "POST", "PUT", "PATCH", "DELETE"] ∧
    strStarts reqC4.path "/api/" = true ∧
    cfgH.host ≠ "" ∧
    (mkOutbound cfgH.host "GET" "/api/z?q=1" [] none).url = "https://h.example.com/api/z?q=1" :=
  ⟨by decide, by decide, by decide,
   C4_outbound_url cfgH envA fsEmpty backendFail reqC4 (by decide) (by decide) (by decide)
     (mkOutbound cfgH.host "GET" "/api/z?q=1" [] none) rfl⟩

/-- Claim C9: the configuration is resolved once before the request loop
and is only ever read by the handlers; running any sequence of requests
leaves it unchanged and every request observes the same initial value. -/
theorem C9_config_immutable (cfg : Config) (env : Env) (fs : String → Option StaticFile)
    (backend : OutboundRequest → TransportResult) (reqs : List InboundRequest) :
    (runServer cfg env fs backend reqs).2 = cfg ∧
    (runServer cfg env fs backend reqs).1 =
      reqs.map (fun r => handle cfg env fs backend r) := by
  induction reqs with
  | nil => simp [runServer]
  | cons r rs ih => simp [runServer, handleStateful, ih.1, ih.2]

/-- Claim C10: the DELETE handler never reads the inbound body and invokes
the proxy with no body, so the outbound proxied request carries no body
even when the inbound request has one. -/
theorem C10_delete_ignores_body (cfg : Config) (env : Env) (fs : String → Option StaticFile)
    (backend : OutboundRequest → TransportResult) (req : InboundRequest)
    (hm : req.method = "DELETE") (hp : strStarts req.path "/api/" = true)
    (o : OutboundRequest) (ho : (handle cfg env fs backend req).outbound = some o) :
    o.body = none := by
  rw [handle_api cfg env fs backend req (by simp [hm]) hp] at ho
  by_cases hh : cfg.host = ""
  · simp [proxy_api_request, hh] at ho
  · rw [proxy_outbound_some cfg backend req.path req.headers req.method (proxiedBody req) hh] at ho
    have h2 := Option.some.inj ho
    subst h2
    simp [mkOutbound, proxiedBody, hm]

/-- Concrete DELETE request with a non-empty inbound body, used in
witnesses. -/
def reqC10 : InboundRequest :=
  { method := "DELETE", path := "/api/item/3", headers := [], body := some "ignored payload" }

/-- Witness for claim C10 at a concrete DELETE request with a body. -/
theorem C10_witness :
    reqC10.method = "DELETE" ∧
    strStarts reqC10.path "/api/" = true ∧
    reqC10.body = some "ignored payload" ∧
    (mkOutbound cfgH.host "DELETE" "/api/item/3" [] none).body = none :=
  ⟨rfl, by decide, rfl,
   C10_delete_ignores_body cfgH envA fsEmpty backendFail reqC10 rfl (by decide)
     (mkOutbound cfgH.host "DELETE" "/api/item/3" [] none) rfl⟩

/-- Helper: looking up Authorization in the outbound base headers extended
with an Authorization entry yields that entry. -/
theorem getHeader_obBase_auth (v : String) :
    getHeader (obBase ++ [("Authorization", v)]) "Authorization" = some v := rfl

/-- Helper: the outbound base headers carry no Authorization entry. -/
theorem getHeader_obBase_no_auth :
    getHeader obBase "Authorization" = none := rfl

/-- Concrete request carrying an empty X-Forwarded-Access-Token header and
no Authorization header. -/
def reqC1 : InboundRequest :=
  { method := "GET", path := "/api/x", headers := [("X-Forwarded-Access-Token", "")], body := none }

/-- Counterexample to claim C1 as stated: the request carries an
X-Forwarded-Access-Token header whose value is the empty string, yet the
outbound request carries no Authorization header at all, instead of the
claimed Bearer credential, because the empty token is falsy in Python. -/
theorem C1_counterexample :
    getHeader reqC1.headers "X-Forwarded-Access-Token" = some "" ∧
    (handle cfgH envA fsEmpty backendFail reqC1).outbound =
      some (mkOutbound cfgH.host "GET" reqC1.path reqC1.headers none) ∧
    getHeader (mkOutbound cfgH.host "GET" reqC1.path reqC1.headers none).headers "Authorization" =
      none ∧
    getHeader (mkOutbound cfgH.host "GET" reqC1.path reqC1.headers none).headers "Authorization" ≠
      some ("Bearer " ++ "") :=
  ⟨rfl, rfl, rfl, by decide⟩

/-- Claim C1 (amended): the outbound Authorization header is selected in
strict priority order, where a present-but-empty forwarded token counts as
absent: a non-empty X-Forwarded-Access-Token value T yields Bearer T; an
absent or empty forwarded token falls back to the inbound Authorization
header forwarded verbatim when present; otherwise no Authorization header
is sent. -/
theorem C1_auth_priority (cfg : Config) (env : Env) (fs : String → Option StaticFile)
    (backend : OutboundRequest → TransportResult) (req : InboundRequest)
    (hm : req.method ∈ ["GET", "POST", "PUT", "PATCH", "DELETE"])
    (hp : strStarts req.path "/api/" = true) (hh : cfg.host ≠ "")
    (o : OutboundRequest) (ho : (handle cfg env fs backend req).outbound = some o) :
    getHeader o.headers "Authorization" =
      (match getHeader req.headers "X-Forwarded-Access-Token" with
       | some t =>
         if t ≠ "" then some ("Bearer " ++ t)
         else getHeader req.headers "Authorization"
       | none => getHeader req.headers "Authorization") := by
  rw [handle_api cfg env fs backend req hm hp,
      proxy_outbound_some cfg backend req.path req.headers req.method (proxiedBody req) hh] at ho
  have h2 := Option.some.inj ho
  subst h2
  show getHeader (outboundHeaders req.headers) "Authorization" = _
  unfold outboundHeaders
  cases hx : getHeader req.headers "X-Forwarded-Access-Token" with
  | some t =>
    dsimp only
    by_cases ht : t = ""
    · rw [if_neg (fun hc => hc ht), if_neg (fun hc => hc ht)]
      cases ha : getHeader req.headers "Authorization" with
      | some v => exact getHeader_obBase_auth v
      | none => exact getHeader_obBase_no_auth
    · rw [if_pos ht, if_pos ht]
      exact getHeader_obBase_auth ("Bearer " ++ t)
  | none =>
    dsimp only
    cases ha : getHeader req.headers "Authorization" with
    | some v => exact getHeader_obBase_auth v
    | none => exact getHeader_obBase_no_auth

/-- Concrete request carrying both a forwarded access token and its own
Authorization header. -/
def reqC1w : InboundRequest :=
  { method := "POST", path := "/api/y", headers :=
      [("X-Forwarded-Access-Token", "tok"), ("Authorization", "Basic zz")],
    body := some "payload" }

/-- Witness for the amended claim C1: with a non-empty forwarded token the
outbound Authorization header is the Bearer credential, even though an
inbound Authorization header is also present. -/
theorem C1_witness :
    reqC1w.method ∈ ["GET", "POST", "PUT", "PATCH", "DELETE"] ∧
    strStarts reqC1w.path "/api/" = true ∧
    cfgH.host ≠ "" ∧
    getHeader (mkOutbound cfgH.host "POST" reqC1w.path reqC1w.headers (some "payload")).headers
      "Authorization" = some "Bearer tok" :=
  ⟨by decide, by decide, by decide,
   C1_auth_priority cfgH envA fsEmpty backendFail reqC1w (by decide) (by decide) (by decide)
     (mkOutbound cfgH.host "POST" reqC1w.path reqC1w.headers (some "payload")) rfl⟩

/-- Helper: with a configured host and a successful backend response at the
constructed outbound request, proxy_api_request relays status and body and
filters the two hop-by-hop headers. -/
theorem proxy_success_eq (cfg : Config) (backend : OutboundRequest → TransportResult)
    (path : String) (inHdrs : List (String × String)) (method : String) (body : Option String)
    (st : Nat) (hs : List (String × String)) (bd : String) (hh : cfg.host ≠ "")
    (hb : backend (mkOutbound cfg.host method path inHdrs body) =
      TransportResult.success st hs bd) :
    proxy_api_request cfg backend path inHdrs method body =
      { response :=
          { status := st
            reason := defaultReason st
            headers := finalizeHeaders path
              (hs.filter (fun p =>
                lowerStr p.fst != "transfer-encoding" && lowerStr p.fst != "connection"))
            body := bd }
        outbound := some (mkOutbound cfg.host method path inHdrs body) } := by
  unfold proxy_api_request
  rw [host_beq_false cfg hh]
  simp only [Bool.false_eq_true, if_false]
  rw [hb]

/-- Helper: with a configured host and an HTTPError from the transport at
the constructed outbound request, proxy_api_request relays the code and the
error stream with a JSON content type. -/
theorem proxy_httpError_eq (cfg : Config) (backend : OutboundRequest → TransportResult)
    (path : String) (inHdrs : List (String × String)) (method : String) (body : Option String)
    (code : Nat) (errStream : Option String) (hh : cfg.host ≠ "")
    (hb : backend (mkOutbound cfg.host method path inHdrs body) =
      TransportResult.httpError code errStream) :
    proxy_api_request cfg backend path inHdrs method body =
      { response :=
          { status := code
            reason := defaultReason code
            headers := finalizeHeaders path [("Content-Type", "application/json")]
            body := errStream.getD "\x7b\x7d" }
        outbound := some (mkOutbound cfg.host method path inHdrs body) } := by
  unfold proxy_api_request
  rw [host_beq_false cfg hh]
  simp only [Bool.false_eq_true, if_false]
  conv_lhs => rw [hb]
  cases errStream <;> rfl

/-- Claim C3: for every inbound /api/* request with a configured host, when
the backend responds with an HTTP error status and an error stream, the
proxy relays the backend status code and the error body byte for byte and
sends content type application/json, without wrapping the error. -/
theorem C3_error_relay (cfg : Config) (env : Env) (fs : String → Option StaticFile)
    (backend : OutboundRequest → TransportResult) (req : InboundRequest)
    (code : Nat) (errB : String)
    (hm : req.method ∈ ["GET", "POST", "PUT", "PATCH", "DELETE"])
    (hp : strStarts req.path "/api/" = true) (hh : cfg.host ≠ "")
    (hb : backend (mkOutbound cfg.host req.method req.path req.headers (proxiedBody req)) =
      TransportResult.httpError code (some errB)) :
    (handle cfg env fs backend req).response.status = code ∧
    (handle cfg env fs backend req).response.body = errB ∧
    ("Content-Type", "application/json") ∈ (handle cfg env fs backend req).response.headers := by
  rw [handle_api cfg env fs backend req hm hp,
      proxy_httpError_eq cfg backend req.path req.headers req.method (proxiedBody req)
        code (some errB) hh hb]
  refine ⟨rfl, rfl, ?_⟩
  simp [finalizeHeaders]

/-- Concrete transport returning the 404 error of the spec example. -/
def backend404 : OutboundRequest → TransportResult :=
  fun _ => TransportResult.httpError 404 (some "\x7b\"error\":\"not found\"\x7d")

/-- Witness for claim C3: a backend 404 with a JSON error body is relayed
as 404 with that exact body. -/
theorem C3_witness :
    reqGetApi.method ∈ ["GET", "POST", "PUT", "PATCH", "DELETE"] ∧
    strStarts reqGetApi.path "/api/" = true ∧
    cfgH.host ≠ "" ∧
    ((handle cfgH envA fsEmpty backend404 reqGetApi).response.status = 404 ∧
     (handle cfgH envA fsEmpty backend404 reqGetApi).response.body =
       "\x7b\"error\":\"not found\"\x7d" ∧
     ("Content-Type", "application/json") ∈
       (handle cfgH envA fsEmpty backend404 reqGetApi).response.headers) :=
  ⟨by decide, by decide, by decide,
   C3_error_relay cfgH envA fsEmpty backend404 reqGetApi 404 "\x7b\"error\":\"not found\"\x7d"
     (by decide) (by decide) (by decide) rfl⟩

/-- Claim C5: on a successful backend response, the relayed response keeps
the backend status and body byte for byte; backend headers whose lowercased
name is transfer-encoding or connection never appear, every other backend
header appears unchanged, and no header of the relayed response has one of
the two hop-by-hop names. -/
theorem C5_success_relay (cfg : Config) (env : Env) (fs : String → Option StaticFile)
    (backend : OutboundRequest → TransportResult) (req : InboundRequest)
    (st : Nat) (hs : List (String × String)) (bd : String)
    (hm : req.method ∈ ["GET", "POST", "PUT", "PATCH", "DELETE"])
    (hp : strStarts req.path "/api/" = true) (hh : cfg.host ≠ "")
    (hb : backend (mkOutbound cfg.host req.method req.path req.headers (proxiedBody req)) =
      TransportResult.success st hs bd) :
    (handle cfg env fs backend req).response.status = st ∧
    (handle cfg env fs backend req).response.body = bd ∧
    (∀ p : String × String, p ∈ hs → lowerStr p.fst ≠ "transfer-encoding" →
      lowerStr p.fst ≠ "connection" →
      p ∈ (handle cfg env fs backend req).response.headers) ∧
    (∀ p : String × String, p ∈ (handle cfg env fs backend req).response.headers →
      lowerStr p.fst ≠ "transfer-encoding" ∧ lowerStr p.fst ≠ "connection") := by
  rw [handle_api cfg env fs backend req hm hp,
      proxy_success_eq cfg backend req.path req.headers req.method (proxiedBody req)
        st hs bd hh hb]
  refine ⟨rfl, rfl, ?_, ?_⟩
  · intro p hpmem h1 h2
    show p ∈ finalizeHeaders req.path _
    unfold finalizeHeaders
    exact List.mem_append_left _ (List.mem_filter.mpr ⟨hpmem, by simp [h1, h2]⟩)
  · intro p hpmem
    unfold finalizeHeaders at hpmem
    rcases List.mem_append.mp hpmem with hin | hin
    · have hq := (List.mem_filter.mp hin).2
      simp only [Bool.and_eq_true, bne_iff_ne, ne_eq] at hq
      exact ⟨hq.1, hq.2⟩
    · by_cases hw : wantsNoCache req.path = true
      · rw [if_pos hw] at hin
        simp only [noCacheHeaders, List.mem_cons, List.not_mem_nil, or_false] at hin
        rcases hin with rfl | rfl | rfl <;> exact ⟨by decide, by decide⟩
      · rw [if_neg hw] at hin
        exact absurd hin (List.not_mem_nil p)

/-- Concrete transport returning a successful response that carries both
hop-by-hop headers and an ordinary header. -/
def backendC5 : OutboundRequest → TransportResult :=
  fun _ => TransportResult.success 200
    [("Transfer-Encoding", "chunked"), ("X-Custom", "1"), ("Connection", "keep-alive")] "BODY"

/-- Witness for claim C5 at a concrete successful backend response. -/
theorem C5_witness :
    reqGetApi.method ∈ ["GET", "POST", "PUT", "PATCH", "DELETE"] ∧
    cfgH.host ≠ "" ∧
    ((handle cfgH envA fsEmpty backendC5 reqGetApi).response.status = 200 ∧
     (handle cfgH envA fsEmpty backendC5 reqGetApi).response.body = "BODY" ∧
     ("X-Custom", "1") ∈ (handle cfgH envA fsEmpty backendC5 reqGetApi).response.headers) := by
  have T := C5_success_relay cfgH envA fsEmpty backendC5 reqGetApi 200
    [("Transfer-Encoding", "chunked"), ("X-Custom", "1"), ("Connection", "keep-alive")] "BODY"
    (by decide) (by decide) (by decide) rfl
  exact ⟨by decide, by decide,
    T.1, T.2.1, T.2.2.1 ("X-Custom", "1") (by decide) (by decide) (by decide)⟩

/-- Concrete environment in which another environment value contains the
text isOBO: true while the client id is empty. -/
def envC6 : Env :=
  { GENIE_SPACE_ID := "isOBO: true", SQL_WAREHOUSE_ID := "", DATABRICKS_CLIENT_ID := "" }

/-- Concrete GET request for the config injection path. -/
def reqCfgJs : InboundRequest :=
  { method := "GET", path := "/config.js", headers := [], body := none }

section

set_option maxRecDepth 10000

/-- Counterexample to claim C6 as stated: the /config.js response does not
carry the Pragma and Expires headers of the no-cache trio (only the
Cache-Control header is sent on this path, and the end_headers override
does not fire for /config.js), and the body can contain the text
isOBO: true even though DATABRICKS_CLIENT_ID is empty, because another
injected environment value contains that text. -/
theorem C6_counterexample :
    envC6.DATABRICKS_CLIENT_ID = "" ∧
    ("Pragma", "no-cache") ∉ (handle cfgH envC6 fsEmpty backendFail reqCfgJs).response.headers ∧
    ("Expires", "0") ∉ (handle cfgH envC6 fsEmpty backendFail reqCfgJs).response.headers ∧
    strContains (handle cfgH envC6 fsEmpty backendFail reqCfgJs).response.body "isOBO: true" := by
  refine ⟨rfl, by decide, by decide,
    ⟨cfgChunk1 ++ cfgH.host ++ cfgChunk2, cfgChunk3 ++ "" ++ cfgChunk4 ++ "isOBO: " ++ "false"
      ++ cfgChunk5 ++ "" ++ cfgChunk6, ?_⟩⟩
  decide

end

/-- Helper: when the client id is non-empty the generated config body
contains the text isOBO: true. -/
theorem configJs_contains_true (host : String) (env : Env)
    (h : env.DATABRICKS_CLIENT_ID ≠ "") :
    strContains (configJsBody host env) "isOBO: true" := by
  refine ⟨cfgChunk1 ++ host ++ cfgChunk2 ++ env.GENIE_SPACE_ID ++ cfgChunk3
      ++ env.SQL_WAREHOUSE_ID ++ cfgChunk4,
    cfgChunk5 ++ env.DATABRICKS_CLIENT_ID ++ cfgChunk6, ?_⟩
  unfold configJsBody
  rw [if_pos h]
  rw [show ("isOBO: true" : String) = "isOBO: " ++ "true" from rfl]
  simp [String.append_assoc]

/-- Helper: when the client id is empty the generated config body contains
the text isOBO: false. -/
theorem configJs_contains_false (host : String) (env : Env)
    (h : env.DATABRICKS_CLIENT_ID = "") :
    strContains (configJsBody host env) "isOBO: false" := by
  refine ⟨cfgChunk1 ++ host ++ cfgChunk2 ++ env.GENIE_SPACE_ID ++ cfgChunk3
      ++ env.SQL_WAREHOUSE_ID ++ cfgChunk4,
    cfgChunk5 ++ env.DATABRICKS_CLIENT_ID ++ cfgChunk6, ?_⟩
  unfold configJsBody
  rw [if_neg (fun hc => hc h)]
  rw [show ("isOBO: false" : String) = "isOBO: " ++ "false" from rfl]
  simp [String.append_assoc]

/-- Claim C6 (amended): every GET request to /config.js returns status 200
with content type application/javascript and the Cache-Control no-cache
header, but not the Pragma and Expires headers; the body contains
isOBO: true whenever DATABRICKS_CLIENT_ID is non-empty at the time of the
call, and isOBO: false whenever it is empty. -/
theorem C6_config_js (cfg : Config) (env : Env) (fs : String → Option StaticFile)
    (backend : OutboundRequest → TransportResult) (req : InboundRequest)
    (hm : req.method = "GET") (hp : req.path = "/config.js") :
    (handle cfg env fs backend req).response.status = 200 ∧
    ("Content-type", "application/javascript") ∈
      (handle cfg env fs backend req).response.headers ∧
    ("Cache-Control", "no-cache, no-store, must-revalidate") ∈
      (handle cfg env fs backend req).response.headers ∧
    ("Pragma", "no-cache") ∉ (handle cfg env fs backend req).response.headers ∧
    ("Expires", "0") ∉ (handle cfg env fs backend req).response.headers ∧
    (env.DATABRICKS_CLIENT_ID ≠ "" →
      strContains (handle cfg env fs backend req).response.body "isOBO: true") ∧
    (env.DATABRICKS_CLIENT_ID = "" →
      strContains (handle cfg env fs backend req).response.body "isOBO: false") := by
  obtain ⟨m, p, hs, b⟩ := req
  have hm2 : m = "GET" := hm
  have hp2 : p = "/config.js" := hp
  subst hm2
  subst hp2
  rw [show handle cfg env fs backend
      { method := "GET", path := "/config.js", headers := hs, body := b } =
      { response := configJsResponse "/config.js" cfg env, outbound := none } from rfl]
  refine ⟨rfl, ?_, ?_, ?_, ?_, ?_, ?_⟩
  · show ("Content-type", "application/javascript") ∈
      ([("Content-type", "application/javascript"),
        ("Cache-Control", "no-cache, no-store, must-revalidate")] : List (String × String))
    decide
  · show ("Cache-Control", "no-cache, no-store, must-revalidate") ∈
      ([("Content-type", "application/javascript"),
        ("Cache-Control", "no-cache, no-store, must-revalidate")] : List (String × String))
    decide
  · show ("Pragma", "no-cache") ∉
      ([("Content-type", "application/javascript"),
        ("Cache-Control", "no-cache, no-store, must-revalidate")] : List (String × String))
    decide
  · show ("Expires", "0") ∉
      ([("Content-type", "application/javascript"),
        ("Cache-Control", "no-cache, no-store, must-revalidate")] : List (String × String))
    decide
  · intro h
    exact configJs_contains_true cfg.host env h
  · intro h
    exact configJs_contains_false cfg.host env h

/-- Concrete environment with a non-empty client id. -/
def envObo : Env :=
  { GENIE_SPACE_ID := "g1", SQL_WAREHOUSE_ID := "w1", DATABRICKS_CLIENT_ID := "cid" }

/-- Witness for the amended claim C6 at a concrete request and a non-empty
client id. -/
theorem C6_witness :
    reqCfgJs.method = "GET" ∧
    reqCfgJs.path = "/config.js" ∧
    envObo.DATABRICKS_CLIENT_ID ≠ "" ∧
    ((handle cfgH envObo fsEmpty backendFail reqCfgJs).response.status = 200 ∧
     ("Content-type", "application/javascript") ∈
       (handle cfgH envObo fsEmpty backendFail reqCfgJs).response.headers ∧
     ("Pragma", "no-cache") ∉ (handle cfgH envObo fsEmpty backendFail reqCfgJs).response.headers ∧
     strContains (handle cfgH envObo fsEmpty backendFail reqCfgJs).response.body "isOBO: true") := by
  have T := C6_config_js cfgH envObo fsEmpty backendFail reqCfgJs rfl rfl
  exact ⟨rfl, rfl, by decide, T.1, T.2.1, T.2.2.2.1, T.2.2.2.2.2.1 (by decide)⟩

/-- Concrete POST request to a non-API path, the favicon example of the
spec. -/
def reqFavicon : InboundRequest :=
  { method := "POST", path := "/favicon.ico", headers := [], body := none }

/-- Concrete OPTIONS request to an API path. -/
def reqOptions : InboundRequest :=
  { method := "OPTIONS", path := "/api/x", headers := [], body := none }

/-- Concrete HEAD request to the index page. -/
def reqHead : InboundRequest :=
  { method := "HEAD", path := "/index.html", headers := [], body := none }

/-- Counterexample to claim C7 as stated: an OPTIONS request to an API path
is answered by the base dispatcher with 501 Unsupported method, not with
the claimed 405. -/
theorem C7_counterexample :
    reqOptions.path = "/api/x" ∧
    (handle cfgH envA fsEmpty backendFail reqOptions).response.status = 501 ∧
    ¬ (handle cfgH envA fsEmpty backendFail reqOptions).response.status = 405 :=
  ⟨rfl, rfl, by decide⟩

/-- Claim C7 (amended): a POST, PUT, PATCH or DELETE request on a non-API
path is answered with 405 and never forwarded; a method with no registered
handler (anything other than GET, HEAD, POST, PUT, PATCH, DELETE) is
answered with 501 Unsupported method by the base dispatcher, on any path,
and never forwarded; a HEAD request is served by the inherited static file
handler and never forwarded. -/
theorem C7_method_routing (cfg : Config) (env : Env) (fs : String → Option StaticFile)
    (backend : OutboundRequest → TransportResult) (req1 req2 req3 : InboundRequest)
    (h1m : req1.method ∈ ["POST", "PUT", "PATCH", "DELETE"])
    (h1p : strStarts req1.path "/api/" = false)
    (h2m : req2.method ∉ ["GET", "HEAD", "POST", "PUT", "PATCH", "DELETE"])
    (h3m : req3.method = "HEAD") :
    ((handle cfg env fs backend req1).response.status = 405 ∧
     (handle cfg env fs backend req1).outbound = none) ∧
    ((handle cfg env fs backend req2).response.status = 501 ∧
     (handle cfg env fs backend req2).outbound = none) ∧
    (handle cfg env fs backend req3).outbound = none := by
  refine ⟨?_, ?_, ?_⟩
  · obtain ⟨m1, p1, hs1, b1⟩ := req1
    have h1p2 : strStarts p1 "/api/" = false := h1p
    simp only [List.mem_cons, List.not_mem_nil, or_false] at h1m
    rcases h1m with h | h | h | h
    · have h2 : m1 = "POST" := h
      subst h2
      simp [handle, do_POST, h1p2, sendError]
    · have h2 : m1 = "PUT" := h
      subst h2
      simp [handle, do_PUT, h1p2, sendError]
    · have h2 : m1 = "PATCH" := h
      subst h2
      simp [handle, do_PATCH, h1p2, sendError]
    · have h2 : m1 = "DELETE" := h
      subst h2
      simp [handle, do_DELETE, h1p2, sendError]
  · obtain ⟨m2, p2, hs2, b2⟩ := req2
    have hn : ¬ (m2 = "GET" ∨ m2 = "HEAD" ∨ m2 = "POST" ∨ m2 = "PUT" ∨ m2 = "PATCH"
        ∨ m2 = "DELETE") := by
      intro hc
      apply h2m
      simp only [List.mem_cons, List.not_mem_nil, or_false]
      exact hc
    push_neg at hn
    obtain ⟨n1, n2, n3, n4, n5, n6⟩ := hn
    simp [handle, sendError, beq_iff_eq, n1, n2, n3, n4, n5, n6]
  · obtain ⟨m3, p3, hs3, b3⟩ := req3
    have h3 : m3 = "HEAD" := h3m
    subst h3
    rfl

/-- Witness for the amended claim C7 at three concrete requests. -/
theorem C7_witness :
    reqFavicon.method ∈ ["POST", "PUT", "PATCH", "DELETE"] ∧
    strStarts reqFavicon.path "/api/" = false ∧
    reqOptions.method ∉ ["GET", "HEAD", "POST", "PUT", "PATCH", "DELETE"] ∧
    reqHead.method = "HEAD" ∧
    (((handle cfgH envA fsEmpty backendFail reqFavicon).response.status = 405 ∧
      (handle cfgH envA fsEmpty backendFail reqFavicon).outbound = none) ∧
     ((handle cfgH envA fsEmpty backendFail reqOptions).response.status = 501 ∧
      (handle cfgH envA fsEmpty backendFail reqOptions).outbound = none) ∧
     (handle cfgH envA fsEmpty backendFail reqHead).outbound = none) :=
  ⟨by decide, by decide, by decide, rfl,
   C7_method_routing cfgH envA fsEmpty backendFail reqFavicon reqOptions reqHead
     (by decide) (by decide) (by decide) rfl⟩

/-- Helper: the static file component finalizes its headers through the
end_headers override for the request path, in both branches. -/
theorem serveStatic_headers (fs : String → Option StaticFile) (path : String)
    (headOnly : Bool) :
    ∃ hs, (serveStatic fs path headOnly).headers = finalizeHeaders path hs := by
  unfold serveStatic sendError
  repeat' split
  all_goals exact ⟨_, rfl⟩

/-- Helper: the proxy component also finalizes its headers through the
end_headers override for the request path, in every branch. -/
theorem proxy_headers (cfg : Config) (backend : OutboundRequest → TransportResult)
    (path : String) (inHdrs : List (String × String)) (method : String) (body : Option String) :
    ∃ hs, (proxy_api_request cfg backend path inHdrs method body).response.headers =
      finalizeHeaders path hs := by
  unfold proxy_api_request sendError
  dsimp only
  repeat' split
  all_goals exact ⟨_, rfl⟩

/-- Helper: every response produced by handle has its headers finalized by
the end_headers override for the request path, whichever component built
the response. -/
theorem handle_headers_finalized (cfg : Config) (env : Env) (fs : String → Option StaticFile)
    (backend : OutboundRequest → TransportResult) (req : InboundRequest) :
    ∃ hs, (handle cfg env fs backend req).response.headers = finalizeHeaders req.path hs := by
  unfold handle do_GET do_POST do_PUT do_PATCH do_DELETE do_HEAD configJsResponse sendError
  repeat' split
  all_goals first
    | exact proxy_headers cfg backend _ _ _ _
    | exact serveStatic_headers fs _ _
    | exact ⟨_, rfl⟩

/-- Claim C8: every response to a request whose path ends in .html or is
the root carries the three no-cache headers, regardless of method and of
which component produced the response; and a GET request for /app.js never
carries any of them. -/
theorem C8_no_cache_policy (cfg : Config) (env : Env) (fs : String → Option StaticFile)
    (backend : OutboundRequest → TransportResult) (req req2 : InboundRequest)
    (h : strEnds req.path ".html" = true ∨ req.path = "/")
    (h2m : req2.method = "GET") (h2p : req2.path = "/app.js") :
    (("Cache-Control", "no-cache, no-store, must-revalidate") ∈
       (handle cfg env fs backend req).response.headers ∧
     ("Pragma", "no-cache") ∈ (handle cfg env fs backend req).response.headers ∧
     ("Expires", "0") ∈ (handle cfg env fs backend req).response.headers) ∧
    (("Cache-Control", "no-cache, no-store, must-revalidate") ∉
       (handle cfg env fs backend req2).response.headers ∧
     ("Pragma", "no-cache") ∉ (handle cfg env fs backend req2).response.headers ∧
     ("Expires", "0") ∉ (handle cfg env fs backend req2).response.headers) := by
  constructor
  · obtain ⟨hs, hhs⟩ := handle_headers_finalized cfg env fs backend req
    have hw : wantsNoCache req.path = true := by
      rcases h with h | h
      · simp [wantsNoCache, h]
      · simp [wantsNoCache, h]
    rw [hhs]
    unfold finalizeHeaders
    rw [if_pos hw]
    refine ⟨?_, ?_, ?_⟩ <;> exact List.mem_append_right _ (by decide)
  · obtain ⟨m2, p2, hs2, b2⟩ := req2
    have hm2 : m2 = "GET" := h2m
    have hp2 : p2 = "/app.js" := h2p
    subst hm2
    subst hp2
    rw [show handle cfg env fs backend
        { method := "GET", path := "/app.js", headers := hs2, body := b2 } =
        { response := serveStatic fs "/app.js" false, outbound := none } from rfl]
    unfold serveStatic
    cases hf : fs "/app.js" with
    | some f =>
      dsimp only
      rw [show finalizeHeaders "/app.js" [("Content-type", f.mime)] =
          [("Content-type", f.mime)] from rfl]
      refine ⟨?_, ?_, ?_⟩ <;> simp
    | none =>
      dsimp only
      refine ⟨?_, ?_, ?_⟩ <;>
        · show _ ∉ finalizeHeaders "/app.js"
            [("Content-Type", "text/html;charset=utf-8"), ("Connection", "close")]
          decide

/-- Concrete GET request for the SPA index page. -/
def reqIndex : InboundRequest :=
  { method := "GET", path := "/index.html", headers := [], body := none }

/-- Concrete GET request for the application bundle. -/
def reqAppJs : InboundRequest :=
  { method := "GET", path := "/app.js", headers := [], body := none }

/-- Witness for claim C8 at the index page and the application bundle. -/
theorem C8_witness :
    (strEnds reqIndex.path ".html" = true ∨ reqIndex.path = "/") ∧
    reqAppJs.method = "GET" ∧
    reqAppJs.path = "/app.js" ∧
    ((("Cache-Control", "no-cache, no-store, must-revalidate") ∈
        (handle cfgH envA fsEmpty backendFail reqIndex).response.headers ∧
      ("Pragma", "no-cache") ∈ (handle cfgH envA fsEmpty backendFail reqIndex).response.headers ∧
      ("Expires", "0") ∈ (handle cfgH envA fsEmpty backendFail reqIndex).response.headers) ∧
     (("Cache-Control", "no-cache, no-store, must-revalidate") ∉
        (handle cfgH envA fsEmpty backendFail reqAppJs).response.headers ∧
      ("Pragma", "no-cache") ∉ (handle cfgH envA fsEmpty backendFail reqAppJs).response.headers ∧
      ("Expires", "0") ∉ (handle cfgH envA fsEmpty backendFail reqAppJs).response.headers)) :=
  ⟨Or.inl (by decide), rfl, rfl,
   C8_no_cache_policy cfgH envA fsEmpty backendFail reqIndex reqAppJs
     (Or.inl (by decide)) rfl rfl⟩
